import Mathlib

/-!
# The mping probe engine (`src/mp_mping.cc`)

A shallow embedding of the probe engine of mping: the send loop and the receive
step of `MPing::IntervalLoop`, the three loops around it (`WindowLoop`,
`BufferLoop`, `TTLLoop`), the command-line constructor and `ValidatePara`.

Conventions of the embedding.

* `unsigned int` members (`sseq`, `mrseq`, `rseq`) are naturals kept below `2^32`
  by `u32`; an `(int)` cast is `i32`; the `uint16_t` window `intran` is kept below
  `2^16` by `u16`; `size_t` is reduced by `u64`.  The header `mp_mping.h` is not
  part of the sources at hand: the members assigned from `atoi` and compared with
  negative literals (`win_size`, `ttl`, `inc_ttl`, `loop_size`, `burst`, `dport`,
  `server_port`, `mustsend`) are taken to be `int`, `pkt_size` and
  `cur_packet_size` (printed with `%zu`) to be `size_t`.
* The socket, the clock and the signals are the environment.  The state carries
  one script per kind of call: the results of the successive `SendPacket` calls,
  of the successive `ReceiveAndGetSeq` calls, and the seconds read by the
  successive `gettimeofday` calls that steer the control flow (lines 333, 336,
  443; the readings of lines 389 and 424 only stamp statistics and are
  overwritten at line 443 before `now` is tested again).  A signal is delivered
  where it interrupts a blocking call: an `EINTR` result names the signal and the
  handler runs before the call returns.
* A run that is cut short because a script ended is reported with the status
  `running` together with the state reached; `fatal` is a `LOG(FATAL, ...)`.
* Calls to the collaborators are appended to `log`; the statistics output
  (`InsertSequenceTime`, `PrintTempStats`, ...) is not recorded.
-/

namespace MPing

/-! ## Machine integers -/

/-- Reduction of an integer expression to an `unsigned int` (32 bits). -/
def u32 (z : Int) : Nat := (z % 4294967296).toNat

/-- The `(int)` cast of a 32-bit pattern: two's complement reading. -/
def i32 (z : Int) : Int := (z + 2147483648) % 4294967296 - 2147483648

/-- Reduction to a `uint16_t`. -/
def u16 (z : Int) : Nat := (z % 65536).toNat

/-- Reduction to a `size_t` (64 bits). -/
def u64 (z : Int) : Nat := (z % 18446744073709551616).toNat

/-! ## Data model -/

/-- The socket family of server mode (`mlab/socket_family.h`). -/
inductive SocketFamily where
  | unspec
  | ipv4
  | ipv6
  deriving DecidableEq, Repr

/-- The members of `MPing` that the constructor fills from the command line
(initialiser list, lines 448-464). -/
structure Config where
  win_size : Int := 4
  loop : Bool := false
  rate : Int := 0
  slow_start : Bool := false
  ttl : Int := 0
  inc_ttl : Int := 0
  pkt_size : Nat := 0
  loop_size : Int := 0
  version : Bool := false
  debug : Bool := false
  burst : Int := 0
  interval : Int := 0
  dport : Int := 0
  server_port : Int := 0
  server_family : SocketFamily := SocketFamily.unspec
  client_mode : Bool := false
  print_seq_time : Bool := false
  src_addr : String := ""
  dst_host : String := ""
  deriving DecidableEq, Repr

/-- The two signals the engine installs handlers for. -/
inductive Signal where
  | sigalrm
  | sigint
  deriving DecidableEq, Repr

/-- Result of one `SendPacket` call: success, or `-1` with the given `errno`. -/
inductive SendRes where
  | ok
  | eintr (sig : Signal)
  | enobufs
  | econnrefused
  | other
  deriving DecidableEq, Repr

/-- Result of one `ReceiveAndGetSeq` call: a sequence number with `err == 0`,
`EINTR`, or another error. -/
inductive RecvRes where
  | ok (rseq : Nat)
  | eintr (sig : Signal)
  | other
  deriving DecidableEq, Repr

/-- Calls to collaborators and nested loops, in the order they are made. -/
inductive Call where
  | SetSendTTL (t : Int)
  | BufferLoop
  | WindowLoop (cur_packet_size : Nat)
  | IntervalLoop (intran : Nat)
  | SendPacket (seq : Nat) (size : Nat)
  | EnqueueSend (seq : Nat)
  | ReceiveAndGetSeq
  | EnqueueRecv (rseq : Nat)
  | LogError (line : Nat)
  | LogFatal (line : Nat)
  deriving DecidableEq, Repr

/-- The engine state: configuration, the mutable members (lines 465-469), the
three statics (lines 60-62), the environment scripts and the call log. -/
structure State where
  cfg : Config
  mustsend : Int := 0
  start_burst : Bool := false
  sseq : Nat := 0
  mrseq : Nat := 0
  cur_packet_size : Nat := 0
  haltf : Int := 0
  tick : Int := 0
  timedout : Bool := false
  sends : List SendRes := []
  recvs : List RecvRes := []
  clock : List Int := []
  uninit : List Int := []
  log : List Call := []
  deriving DecidableEq, Repr

/-- How a procedure of the engine stopped. -/
inductive Status where
  | returned
  | fatal
  | running
  deriving DecidableEq, Repr

/-- The state a procedure leaves and how it stopped. -/
structure Res where
  st : State
  status : Status
  deriving DecidableEq, Repr

/-! ## Signal handlers and `GoProbing` -/

/-- Handler `MPing::ring` (lines 64-74): the writes to the statics. -/
def ring (s : State) : State := { s with timedout := true, tick := 0 }

/-- Handler `MPing::halt` (lines 76-91): the write to `haltf`. -/
def halt (s : State) : State := { s with haltf := s.haltf + 1 }

/-- Delivery of a signal: its handler runs. -/
def deliver (sig : Signal) (s : State) : State :=
  match sig with
  | Signal.sigalrm => ring s
  | Signal.sigint => halt s

/-- The resets at the head of `MPing::GoProbing` (lines 147-150). -/
def GoProbing_reset (s : State) : State :=
  { s with start_burst := false, timedout := true, sseq := 0, mrseq := 0 }

/-! ## `IntervalLoop`: the inner step -/

/-- The number of probes the inner step sets out to send (lines 355-362). -/
def needSend (intran : Nat) (s : State) : Int :=
  if s.cfg.burst = 0 ∨ s.start_burst = false then
    let maxopen : Int := if s.cfg.slow_start then 2 else 10
    let diff : Int := i32 ((s.sseq : Int) - (s.mrseq : Int) - (intran : Int))
    if diff < 0 then min maxopen (i32 (0 - diff)) else s.mustsend
  else
    let diff : Int := i32 ((s.sseq : Int) - (s.mrseq : Int) + s.cfg.burst - (intran : Int))
    if diff > 0 then s.mustsend else s.cfg.burst

/-- Where control goes after one pass through the body of the send loop. -/
inductive SendCtl where
  | next (need_send : Int)
  | timeout
  | fatal
  deriving DecidableEq, Repr

/-- One pass through the body of `while (need_send > 0)` (lines 367-407), given
the result `r` of its `SendPacket` call. -/
def sendAttempt (intran : Nat) (r : SendRes) (need_send : Int) (s : State) :
    State × SendCtl :=
  let seq : Nat := u32 ((s.sseq : Int) + 1)
  let s1 : State :=
    { s with sseq := seq, log := s.log ++ [Call.SendPacket seq s.cur_packet_size] }
  match r with
  | SendRes.eintr sig => (deliver sig s1, SendCtl.timeout)
  | SendRes.enobufs =>
    ({ s1 with sseq := u32 ((seq : Int) - 1), log := s1.log ++ [Call.LogError 373] },
      SendCtl.next need_send)
  | SendRes.econnrefused =>
    ({ s1 with sseq := u32 ((seq : Int) - 1) }, SendCtl.next need_send)
  | SendRes.other => ({ s1 with log := s1.log ++ [Call.LogFatal 378] }, SendCtl.fatal)
  | SendRes.ok =>
    let s2 : State := { s1 with log := s1.log ++ [Call.EnqueueSend seq] }
    let s3 : State :=
      if s.cfg.burst > 0 ∧ (intran : Int) ≥ s.cfg.burst ∧ s.start_burst = false ∧
          u32 ((seq : Int) - (s.mrseq : Int) - (intran : Int)) = 0 then
        { s2 with start_burst := true }
      else s2
    (s3, SendCtl.next (need_send - 1))

/-- How the send loop ended. -/
inductive SendExit where
  | done
  | timeout
  | fatal
  | running
  deriving DecidableEq, Repr

/-- The send loop `while (need_send > 0)` (lines 366-408) over the script of
`SendPacket` results; the unread rest of the script is put back in the state. -/
def sendLoop (intran : Nat) : List SendRes → Int → State → State × SendExit
  | [], need_send, s =>
    ({ s with sends := [] }, if need_send > 0 then SendExit.running else SendExit.done)
  | r :: rest, need_send, s =>
    if need_send > 0 then
      match sendAttempt intran r need_send s with
      | (s', SendCtl.next n) => sendLoop intran rest n s'
      | (s', SendCtl.timeout) => ({ s' with sends := rest }, SendExit.timeout)
      | (s', SendCtl.fatal) => ({ s' with sends := rest }, SendExit.fatal)
    else ({ s with sends := r :: rest }, SendExit.done)

/-- The receive step (lines 416-437), given the result `r` of its
`ReceiveAndGetSeq` call. -/
def recvOne (r : RecvRes) (s : State) : State × Status :=
  let s1 : State := { s with log := s.log ++ [Call.ReceiveAndGetSeq] }
  match r with
  | RecvRes.other => ({ s1 with log := s1.log ++ [Call.LogFatal 422] }, Status.fatal)
  | RecvRes.eintr sig => (deliver sig s1, Status.returned)
  | RecvRes.ok v =>
    let rseq : Nat := u32 (v : Int)
    let s2 : State := { s1 with log := s1.log ++ [Call.EnqueueRecv rseq] }
    if i32 ((s.sseq : Int) - (rseq : Int)) < 0 then
      ({ s2 with log := s2.log ++ [Call.LogError 432] }, Status.returned)
    else ({ s2 with mrseq := rseq }, Status.returned)

/-- How one pass through the body of the tick loop ended: it reached line 443,
left the loop at line 412, died, or is still waiting for the environment. -/
inductive StepExit where
  | next
  | timeout
  | fatal
  | running
  deriving DecidableEq, Repr

/-- The inner step: the body of the tick loop up to line 437 (the computation of
`need_send`, the send loop, one receive). -/
def innerStep (intran : Nat) (s : State) : State × StepExit :=
  let need_send : Int := needSend intran s
  match sendLoop intran s.sends need_send { s with mustsend := 0 } with
  | (s1, SendExit.timeout) => ({ s1 with log := s1.log ++ [Call.LogError 411] }, StepExit.timeout)
  | (s1, SendExit.fatal) => (s1, StepExit.fatal)
  | (s1, SendExit.running) => (s1, StepExit.running)
  | (s1, SendExit.done) =>
    match s1.recvs with
    | [] => (s1, StepExit.running)
    | r :: rest =>
      match recvOne r { s1 with recvs := rest } with
      | (s2, Status.returned) => (s2, StepExit.next)
      | (s2, Status.fatal) => (s2, StepExit.fatal)
      | (s2, Status.running) => (s2, StepExit.running)

/-! ## `IntervalLoop`: clock alignment and the tick loop -/

/-- The busy wait of lines 335-337, `while (tick >= now.tv_sec) gettimeofday(&now)`,
over the script of clock readings: the last reading, the unread rest of the
script, and whether the loop was left. -/
def syncWait (tick : Int) : List Int → Int → Int × List Int × Bool
  | [], now => (now, [], decide (¬ tick ≥ now))
  | c :: cs, now => if tick ≥ now then syncWait tick cs c else (now, c :: cs, true)

/-- The tick loop `while (tick >= now.tv_sec)` (lines 346-444, built without
`MP_TEST`) over the script of the clock readings of line 443. -/
def tickLoop (intran : Nat) : List Int → Int → State → Res
  | clock, now, s =>
    if s.tick ≥ now then
      match innerStep intran s with
      | (s1, StepExit.next) =>
        match clock with
        | [] => ⟨{ s1 with clock := [] }, Status.running⟩
        | c :: cs => tickLoop intran cs c s1
      | (s1, StepExit.timeout) => ⟨{ s1 with clock := clock }, Status.returned⟩
      | (s1, StepExit.fatal) => ⟨{ s1 with clock := clock }, Status.fatal⟩
      | (s1, StepExit.running) => ⟨{ s1 with clock := clock }, Status.running⟩
    else ⟨{ s with clock := clock }, Status.returned⟩

/-- The procedure `MPing::IntervalLoop` (lines 327-445).  When `tick` is nonzero on
entry the local `now` is read at line 346 without having been written: its
content is the next entry of the script `uninit`. -/
def IntervalLoop (intran : Nat) (s : State) : Res :=
  if s.tick = 0 then
    match s.clock with
    | [] => ⟨s, Status.running⟩
    | c :: cs =>
      match syncWait c cs c with
      | (now, rest, true) => tickLoop intran rest now { s with tick := c + 1 }
      | (_, rest, false) => ⟨{ s with tick := c, clock := rest }, Status.running⟩
  else
    match s.uninit with
    | [] => ⟨s, Status.running⟩
    | g :: gs => tickLoop intran s.clock g { s with tick := s.tick + 1, uninit := gs }

/-! ## The three outer loops

Each loop is written over the procedure it calls, so that what is proved of the
loop holds for every behaviour of the procedure called; `engine` is the
composition the program runs.  A loop stops with the result of a call that did
not return. -/

/-- The `for` loop of `MPing::WindowLoop` (lines 288-321) from the loop test on,
`intran` being the loop variable. -/
def WindowLoop_for (IL : Nat → State → Res) : Nat → Nat → State → Res
  | 0, intran, s => ⟨s, if intran = 0 then Status.returned else Status.running⟩
  | fuel + 1, intran, s =>
    if intran = 0 then ⟨s, Status.returned⟩
    else
      let intran1 : Nat := if s.haltf ≠ 0 then 0 else intran
      if (intran1 : Int) > s.cfg.win_size ∧ s.cfg.loop = true ∧
          (s.cfg.inc_ttl > 0 ∨ s.cfg.loop_size < 0) then ⟨s, Status.returned⟩
      else
        let intran2 : Nat :=
          if (intran1 : Int) > s.cfg.win_size then
            (if s.cfg.loop = true then u16 s.cfg.win_size else 0)
          else intran1
        let s1 : State :=
          if intran2 > 0 ∧ s.timedout = true then { s with mustsend := 1, timedout := false }
          else s
        match IL intran2 { s1 with log := s1.log ++ [Call.IntervalLoop intran2] } with
        | ⟨s2, Status.returned⟩ =>
          WindowLoop_for IL fuel (if intran2 = 0 then 0 else u16 ((intran2 : Int) + 1)) s2
        | r => r

/-- The procedure `MPing::WindowLoop` (lines 274-325). -/
def WindowLoop (IL : Nat → State → Res) (fuel : Nat) (s : State) : Res :=
  WindowLoop_for IL fuel (u16 (if s.cfg.loop = true then s.cfg.win_size else 1)) s

/-- The table of selected sizes (line 52). -/
def kNbTab : List Int := [64, 100, 500, 1000, 1500, 2000, 3000, 4000, 0]

/-- What the head of one `BufferLoop` iteration decides (lines 229-258). -/
inductive SizeSel where
  | size (n : Nat)
  | stop (cur : Option Nat)
  | wrong
  deriving DecidableEq, Repr

/-- The packet size selection of lines 229-258 for the loop index `nbix`: the
size to probe with, a `break` (after `cur_packet_size` was assigned, in the
fixed-size case), or the fatal branch of line 255. -/
def selectSize (c : Config) (nbix : Nat) : SizeSel :=
  if c.pkt_size > 0 then
    (if nbix ≠ 0 then SizeSel.stop (some c.pkt_size) else SizeSel.size c.pkt_size)
  else if c.loop_size = -1 then
    (if kNbTab.getD nbix 0 = 0 then SizeSel.stop none
     else SizeSel.size (u64 (kNbTab.getD nbix 0)))
  else if c.loop_size = -2 then
    (if ((nbix : Int) + 1) * 64 > 1500 then SizeSel.stop none
     else SizeSel.size (u64 (((nbix : Int) + 1) * 64)))
  else if c.loop_size = -3 then
    (if ((nbix : Int) + 1) * 128 > 2048 then SizeSel.stop none
     else SizeSel.size (u64 (((nbix : Int) + 1) * 128)))
  else if c.loop_size = -4 then
    (if ((nbix : Int) + 1) * 256 > 4500 then SizeSel.stop none
     else SizeSel.size (u64 (((nbix : Int) + 1) * 256)))
  else SizeSel.wrong

/-- The `for` loop of `MPing::BufferLoop` (lines 225-267), `nbix` being the loop
variable. -/
def BufferLoop_for (WL : State → Res) : Nat → Nat → State → Res
  | 0, _, s => ⟨s, Status.running⟩
  | fuel + 1, nbix, s =>
    if s.haltf ≠ 0 then ⟨s, Status.returned⟩
    else
      match selectSize s.cfg nbix with
      | SizeSel.wrong => ⟨{ s with log := s.log ++ [Call.LogFatal 255] }, Status.fatal⟩
      | SizeSel.stop none => ⟨s, Status.returned⟩
      | SizeSel.stop (some n) => ⟨{ s with cur_packet_size := n }, Status.returned⟩
      | SizeSel.size n =>
        match WL { s with cur_packet_size := n, log := s.log ++ [Call.WindowLoop n] } with
        | ⟨s1, Status.returned⟩ => BufferLoop_for WL fuel (nbix + 1) s1
        | r => r

/-- The procedure `MPing::BufferLoop` (lines 216-272). -/
def BufferLoop (WL : State → Res) (fuel : Nat) (s : State) : Res :=
  BufferLoop_for WL fuel 0 s

/-- The `for` loop of `MPing::TTLLoop` (lines 191-210), `tempttl` being the loop
variable. -/
def TTLLoop_for (BL : State → Res) : Nat → Int → State → Res
  | 0, tempttl, s => ⟨s, if tempttl ≤ s.cfg.ttl then Status.running else Status.returned⟩
  | fuel + 1, tempttl, s =>
    if tempttl ≤ s.cfg.ttl then
      if s.haltf > 1 then ⟨s, Status.returned⟩
      else
        let s1 : State :=
          if s.cfg.ttl ≠ 0 then { s with log := s.log ++ [Call.SetSendTTL tempttl] } else s
        match BL { s1 with log := s1.log ++ [Call.BufferLoop] } with
        | ⟨s2, Status.returned⟩ =>
          TTLLoop_for BL fuel (i32 (tempttl + 1))
            (if s2.haltf = 1 then { s2 with haltf := 0 } else s2)
        | r => r
    else ⟨s, Status.returned⟩

/-- The procedure `MPing::TTLLoop` (lines 181-214). -/
def TTLLoop (BL : State → Res) (fuel : Nat) (s : State) : Res :=
  TTLLoop_for BL fuel (if s.cfg.inc_ttl = 0 then s.cfg.ttl else 1) s

/-- The nest the program runs from `GoProbing` (line 167): `TTLLoop` over
`BufferLoop` over `WindowLoop` over `IntervalLoop`, each loop allowed `fuel`
iterations. -/
def engine (fuel : Nat) (s : State) : Res :=
  TTLLoop (BufferLoop (WindowLoop IntervalLoop fuel) fuel) fuel s

/-! ## The constructor and `ValidatePara`

`atoi` belongs to the C library and is a parameter (`atoiModel` is its reading
of plain decimal numerals, for the concrete command lines below); host name
resolution and the address check of `mlab` are parameters too. -/

/-- How start-up ended: the configuration the engine will run with, `exit(0)`
(usage or version printed), or a `LOG(FATAL, ...)`.  Modelled from the spec:
`LOG(FATAL, ...)` (`mp_log.h`, not among the sources) ends the process, a
warning or error line does not. -/
inductive Startup where
  | accept (c : Config)
  | exit0
  | fatal
  deriving DecidableEq, Repr

/-- A switch that takes no value (the cases shared by both `switch` statements,
lines 488-495 and 501, 503, 520-525): the configuration with the flag set. -/
def setFlag (c : Config) (sw : Char) : Option Config :=
  if sw = 'f' then some { c with loop := true }
  else if sw = 'S' then some { c with slow_start := true }
  else if sw = 'V' then some { c with version := true }
  else if sw = 'd' then some { c with debug := true }
  else if sw = 'c' then some { c with client_mode := true }
  else if sw = 'r' then some { c with print_seq_time := true }
  else if sw = '4' then some { c with server_family := SocketFamily.ipv4 }
  else if sw = '6' then some { c with server_family := SocketFamily.ipv6 }
  else none

/-- A switch followed by its value `v` (the remaining cases of lines 500-526). -/
def setValue (atoi : String → Int) (c : Config) (sw : Char) (v : String) : Option Config :=
  if sw = 'n' then some { c with win_size := atoi v }
  else if sw = 'R' then some { c with rate := atoi v }
  else if sw = 't' then some { c with ttl := atoi v }
  else if sw = 's' then some { c with server_port := atoi v }
  else if sw = 'a' then some { c with inc_ttl := atoi v, ttl := atoi v }
  else if sw = 'b' then
    (if v.data.head? = some '-' then some { c with loop_size := atoi v }
     else some { c with pkt_size := u64 (atoi v) })
  else if sw = 'p' then some { c with dport := atoi v }
  else if sw = 'B' then some { c with burst := atoi v }
  else if sw = 'F' then some { c with src_addr := v }
  else none

/-- The argument loop of the constructor (lines 483-544) over the arguments not
yet read; `none` is a `LOG(FATAL, ...)`.  The character `p[1]` of the one-letter
argument `-` is the terminating NUL, which no case matches. -/
def parseArgs (atoi : String → Int) : List String → Bool → Config → Option Config
  | [], _, c => some c
  | [p], host_set, c =>
    match p.data with
    | '-' :: sw :: _ => setFlag c sw
    | ['-'] => none
    | _ => if host_set then none else some { c with dst_host := p }
  | p :: v :: rest, host_set, c =>
    match p.data with
    | '-' :: sw :: _ =>
      match setFlag c sw with
      | some c1 => parseArgs atoi (v :: rest) host_set c1
      | none =>
        match setValue atoi c sw v with
        | some c1 => parseArgs atoi rest host_set c1
        | none => none
    | ['-'] => none
    | _ =>
      if host_set then none
      else parseArgs atoi (v :: rest) true { c with dst_host := p }

/-- The procedure `MPing::ValidatePara` (lines 554-647).  `resolves h` says that
`mlab::Host(h)` has a resolved address, `validAddr a` that
`GetSocketFamilyForAddress(a)` is not `SOCKETFAMILY_UNSPEC`. -/
def ValidatePara (resolves validAddr : String → Bool) (c : Config) : Startup :=
  if c.version = true then Startup.exit0
  else if c.server_port > 0 then
    (if c.server_port > 65535 then Startup.fatal
     else if c.server_family = SocketFamily.unspec then Startup.fatal
     else Startup.accept c)
  else if c.dst_host = "" then Startup.fatal
  else if c.client_mode = true ∧ c.dport = 0 then Startup.fatal
  else
    let c1 : Config := if c.client_mode = true ∧ c.ttl = 0 then { c with ttl := 255 } else c
    let c2 : Config := if c1.ttl > 255 ∨ c1.ttl < 0 then { c1 with ttl := 255 } else c1
    if c2.loop_size < -4 ∨ c2.loop_size > 0 then Startup.fatal
    else
      let c3 : Config :=
        if c2.inc_ttl > 255 ∨ c2.inc_ttl < 0 then { c2 with inc_ttl := 255 } else c2
      if resolves c3.dst_host = false then Startup.fatal
      else if c3.pkt_size > 65535 then Startup.fatal
      else if c3.src_addr.length > 0 ∧ validAddr c3.src_addr = false then Startup.fatal
      else if c3.dport > 0 ∧ c3.ttl = 0 ∧ c3.client_mode = false then Startup.fatal
      else if c3.dport > 0 ∧ c3.dport > 65535 then Startup.fatal
      else Startup.accept c3

/-- The constructor `MPing::MPing(argc, argv)` (lines 447-552): `argv` with the
program name first. -/
def construct (atoi : String → Int) (resolves validAddr : String → Bool)
    (argv : List String) : Startup :=
  match argv with
  | [] => Startup.exit0
  | [_] => Startup.exit0
  | _ :: args =>
    match parseArgs atoi args false {} with
    | none => Startup.fatal
    | some c => ValidatePara resolves validAddr c

/-- Whether the accepted configuration runs the client (`IsServerMode` false,
lines 141-143). -/
def nonServer (c : Config) : Prop := ¬ c.server_port > 0

/-- The value of a run of decimal digits read after the digits `acc`. -/
def atoiDigits : List Char → Nat → Nat
  | [], acc => acc
  | d :: ds, acc => if d.isDigit then atoiDigits ds (acc * 10 + (d.toNat - 48)) else acc

/-- The C library `atoi` on numerals without leading blanks: an optional sign
and the longest run of decimal digits. -/
def atoiModel (v : String) : Int :=
  match v.data with
  | '-' :: ds => - (atoiDigits ds 0 : Int)
  | '+' :: ds => (atoiDigits ds 0 : Int)
  | ds => (atoiDigits ds 0 : Int)

/-! ## Initial values -/

/-- The configuration of the constructor's initialiser list (lines 448-464). -/
def defaults : Config := {}

/-- The engine state the constructor leaves for the configuration `c` (lines
465-469 and the statics of lines 60-62), in an environment with no script yet. -/
def boot (c : Config) : State := { cfg := c }

/-! ## Reading the call log -/

/-- The window targets of the `IntervalLoop` calls in a log, in call order. -/
def intervalCalls : List Call → List Nat
  | [] => []
  | Call.IntervalLoop i :: l => i :: intervalCalls l
  | _ :: l => intervalCalls l

/-- The packet sizes of the `WindowLoop` calls in a log, in call order. -/
def windowCalls : List Call → List Nat
  | [] => []
  | Call.WindowLoop n :: l => n :: windowCalls l
  | _ :: l => windowCalls l

/-- The `SetSendTTL` and `BufferLoop` calls in a log, in call order. -/
def ttlCalls : List Call → List Call
  | [] => []
  | Call.SetSendTTL t :: l => Call.SetSendTTL t :: ttlCalls l
  | Call.BufferLoop :: l => Call.BufferLoop :: ttlCalls l
  | _ :: l => ttlCalls l

/-- The sequence numbers of the `SendPacket` calls in a log, in call order. -/
def sendCalls : List Call → List Nat
  | [] => []
  | Call.SendPacket q _ :: l => q :: sendCalls l
  | _ :: l => sendCalls l

/-- The cap on new sends of one inner step (line 356). -/
def maxopen (c : Config) : Nat := if c.slow_start = true then 2 else 10

/-- The calls `SetSendTTL(t); BufferLoop` for `t = from, from + 1, ...`, `n` times. -/
def ttlSweep : Nat → Int → List Call
  | 0, _ => []
  | n + 1, t => Call.SetSendTTL t :: Call.BufferLoop :: ttlSweep n (t + 1)

/-! ## Concrete runs -/

/-- The state after the `GoProbing` reset when the socket will accept one probe and
then hand back a reply carrying the sequence number `2^32 - 1`. -/
def farReplyStart : State :=
  GoProbing_reset
    { boot defaults with
      sends := [SendRes.ok]
      recvs := [RecvRes.ok 4294967295] }

/-- A destination attempt of `mping -n 1 -S`: five inner steps within one tick, each
sending one probe; the replies carry the sequences 1, 2, 3, 4 and then 1 again (a
duplicate of the first reply). -/
def duplicateReplyStart : State :=
  GoProbing_reset
    { boot { defaults with win_size := 1, slow_start := true } with
      sends := [SendRes.ok, SendRes.ok, SendRes.ok, SendRes.ok, SendRes.ok]
      recvs := [RecvRes.ok 1, RecvRes.ok 2, RecvRes.ok 3, RecvRes.ok 4, RecvRes.ok 1]
      clock := [100, 101, 101, 101, 101, 101, 102] }

/-- A destination attempt of `mping -n 3 -S` against a host that never replies:
every receive is interrupted by the alarm. -/
def silentHostStart : State :=
  GoProbing_reset
    { boot { defaults with win_size := 3, slow_start := true } with
      sends := [SendRes.ok, SendRes.ok, SendRes.ok]
      recvs := [RecvRes.eintr Signal.sigalrm, RecvRes.eintr Signal.sigalrm,
                RecvRes.eintr Signal.sigalrm, RecvRes.eintr Signal.sigalrm]
      clock := [100, 101, 101, 102, 103, 103, 104, 105, 105, 106, 107, 107] }

/-- A state in mid-run: sequences up to 7 sent, `mrseq = 4`, the socket ready to
take two probes and the reply 6 waiting. -/
def catchUpState : State :=
  { boot defaults with
    sseq := 7
    mrseq := 4
    sends := [SendRes.ok, SendRes.ok]
    recvs := [RecvRes.ok 6] }

/-! # Theorems -/

/-! ## Machine integers -/

theorem u32_lt (z : Int) : u32 z < 4294967296 := by
  unfold u32; omega

theorem u32_of_range (z : Int) (h0 : 0 ≤ z) (h1 : z < 4294967296) : (u32 z : Int) = z := by
  unfold u32; omega

theorem u32_succ_pred (n : Nat) (h : n < 4294967296) :
    u32 ((u32 ((n : Int) + 1) : Int) - 1) = n := by
  unfold u32; omega

theorem i32_of_range (z : Int) (h0 : -2147483648 ≤ z) (h1 : z < 2147483648) : i32 z = z := by
  unfold i32; omega

theorem u16_of_range (z : Int) (h0 : 0 ≤ z) (h1 : z < 65536) : (u16 z : Int) = z := by
  unfold u16; omega

/-! ## The send loop and the receive step: what they leave alone -/

theorem sendAttempt_frame (intran : Nat) (r : SendRes) (n : Int) (s : State) :
    (sendAttempt intran r n s).1.mrseq = s.mrseq ∧
    (sendAttempt intran r n s).1.cfg = s.cfg ∧
    (sendAttempt intran r n s).1.recvs = s.recvs ∧
    (sendAttempt intran r n s).1.sends = s.sends ∧
    (sendAttempt intran r n s).1.cur_packet_size = s.cur_packet_size ∧
    (sendAttempt intran r n s).1.mustsend = s.mustsend ∧
    (s.start_burst = true → (sendAttempt intran r n s).1.start_burst = true) := by
  unfold sendAttempt
  cases r with
  | eintr sig => cases sig <;> simp [deliver, ring, halt]
  | ok =>
    simp only []
    split <;> simp
  | _ => simp

theorem sendAttempt_sseq (intran : Nat) (r : SendRes) (n : Int) (s : State)
    (hs : s.sseq + 1 < 4294967296) :
    s.sseq ≤ (sendAttempt intran r n s).1.sseq ∧
    (sendAttempt intran r n s).1.sseq ≤ s.sseq + 1 ∧
    (∀ m, (sendAttempt intran r n s).2 = SendCtl.next m →
      ((sendAttempt intran r n s).1.sseq : Int) + m = (s.sseq : Int) + n ∧ m ≤ n) := by
  unfold sendAttempt
  cases r with
  | eintr sig => cases sig <;> simp [deliver, ring, halt, u32] <;> omega
  | ok =>
    simp only []
    split <;> simp [u32] <;> omega
  | _ => simp [u32]; omega

theorem sendLoop_frame (intran : Nat) (script : List SendRes) :
    ∀ (n : Int) (s : State),
      (sendLoop intran script n s).1.mrseq = s.mrseq ∧
      (sendLoop intran script n s).1.cfg = s.cfg ∧
      (sendLoop intran script n s).1.recvs = s.recvs ∧
      (sendLoop intran script n s).1.cur_packet_size = s.cur_packet_size ∧
      (sendLoop intran script n s).1.mustsend = s.mustsend ∧
      (s.start_burst = true → (sendLoop intran script n s).1.start_burst = true) := by
  induction script with
  | nil => intro n s; simp [sendLoop]
  | cons r rest ih =>
    intro n s
    have hf := sendAttempt_frame intran r n s
    unfold sendLoop
    split
    · generalize hp : sendAttempt intran r n s = p at hf
      obtain ⟨t, c⟩ := p
      cases c with
      | next m =>
        have := ih m t
        simp only [] at hf ⊢
        refine ⟨?_, ?_, ?_, ?_, ?_, ?_⟩
        · rw [this.1]; exact hf.1
        · rw [this.2.1]; exact hf.2.1
        · rw [this.2.2.1]; exact hf.2.2.1
        · rw [this.2.2.2.1]; exact hf.2.2.2.2.1
        · rw [this.2.2.2.2.1]; exact hf.2.2.2.2.2.1
        · intro h; exact this.2.2.2.2.2 (hf.2.2.2.2.2.2 h)
      | timeout => simpa using ⟨hf.1, hf.2.1, hf.2.2.1, hf.2.2.2.2.1, hf.2.2.2.2.2.1, hf.2.2.2.2.2.2⟩
      | fatal => simpa using ⟨hf.1, hf.2.1, hf.2.2.1, hf.2.2.2.2.1, hf.2.2.2.2.2.1, hf.2.2.2.2.2.2⟩
    · simp

theorem sendLoop_sseq (intran : Nat) (script : List SendRes) :
    ∀ (n : Int) (s : State), (s.sseq : Int) + max n 0 < 4294967296 →
      s.sseq ≤ (sendLoop intran script n s).1.sseq ∧
      ((sendLoop intran script n s).1.sseq : Int) ≤ (s.sseq : Int) + max n 0 := by
  induction script with
  | nil => intro n s _; simp [sendLoop]
  | cons r rest ih =>
    intro n s hs
    unfold sendLoop
    split
    · rename_i hn
      have hq := sendAttempt_sseq intran r n s (by omega)
      generalize hp : sendAttempt intran r n s = p at hq
      obtain ⟨t, c⟩ := p
      cases c with
      | next m =>
        simp only [] at hq ⊢
        obtain ⟨h1, h2, h3⟩ := hq
        obtain ⟨h4, h5⟩ := h3 m rfl
        have := ih m t (by omega)
        omega
      | timeout => simp only [] at hq ⊢; omega
      | fatal => simp only [] at hq ⊢; omega
    · simp

/-! ## C1: `mrseq ≤ sseq` -/

/-- C1, as stated, fails.  From the `GoProbing` reset, one inner step with window 1
sends sequence 1 and then receives the reply sequence `2^32 - 1`: the test of
line 431 reads `(int)(1 - 4294967295) = 2`, which is not negative, so the reply
is taken and `mrseq = 4294967295 > 1 = sseq`; the reply was larger than `sseq`
and `mrseq` did change. -/
theorem mrseq_le_sseq_broken_by_far_reply :
    farReplyStart.sseq = 0 ∧ farReplyStart.mrseq = 0 ∧
    (innerStep 1 farReplyStart).1.sseq = 1 ∧
    (innerStep 1 farReplyStart).1.mrseq = 4294967295 ∧
    ¬ ((innerStep 1 farReplyStart).1.mrseq ≤ (innerStep 1 farReplyStart).1.sseq) := by
  decide

/-- C1, amended.  In a state with `mrseq ≤ sseq`: a send attempt with any outcome
keeps `mrseq ≤ sseq` as long as the 32-bit counter does not wrap
(`sseq + 1 < 2^32`); a receive step keeps it for every outcome whose reply
sequence is at most `2^31` ahead of `sseq`; and a reply with
`sseq < rseq ≤ sseq + 2^31` leaves `mrseq` unchanged. -/
theorem mrseq_le_sseq_step (s : State) (intran : Nat) (need_send : Int)
    (hs : s.sseq < 4294967296) (hinv : s.mrseq ≤ s.sseq) :
    (∀ r : SendRes, s.sseq + 1 < 4294967296 →
      (sendAttempt intran r need_send s).1.mrseq ≤
        (sendAttempt intran r need_send s).1.sseq) ∧
    (∀ r : RecvRes,
      (∀ v, r = RecvRes.ok v → v < 4294967296 ∧ v ≤ s.sseq + 2147483648) →
      (recvOne r s).1.mrseq ≤ (recvOne r s).1.sseq) ∧
    (∀ v, s.sseq < v → v ≤ s.sseq + 2147483648 → v < 4294967296 →
      (recvOne (RecvRes.ok v) s).1.mrseq = s.mrseq) := by
  refine ⟨?_, ?_, ?_⟩
  · intro r hw
    have hf := sendAttempt_frame intran r need_send s
    have hq := sendAttempt_sseq intran r need_send s hw
    rw [hf.1]
    omega
  · intro r hr
    unfold recvOne
    cases r with
    | ok v =>
      obtain ⟨hv, hv'⟩ := hr v rfl
      simp only []
      split
      · simpa using hinv
      · rename_i hneg
        simp only [u32, i32] at hneg ⊢
        omega
    | eintr sig => cases sig <;> simpa [deliver, ring, halt] using hinv
    | other => simpa using hinv
  · intro v h1 h2 h3
    unfold recvOne
    simp only []
    split
    · rfl
    · rename_i hneg
      simp only [u32, i32] at hneg
      omega

/-- C1, amended, at the state `sseq = 5`, `mrseq = 3`. -/
theorem mrseq_le_sseq_step_witness :
    (∀ r : SendRes, 5 + 1 < 4294967296 →
      (sendAttempt 4 r 2 { boot defaults with sseq := 5, mrseq := 3 }).1.mrseq ≤
        (sendAttempt 4 r 2 { boot defaults with sseq := 5, mrseq := 3 }).1.sseq) ∧
    (∀ r : RecvRes,
      (∀ v, r = RecvRes.ok v → v < 4294967296 ∧ v ≤ 5 + 2147483648) →
      (recvOne r { boot defaults with sseq := 5, mrseq := 3 }).1.mrseq ≤
        (recvOne r { boot defaults with sseq := 5, mrseq := 3 }).1.sseq) ∧
    (∀ v, 5 < v → v ≤ 5 + 2147483648 → v < 4294967296 →
      (recvOne (RecvRes.ok v) { boot defaults with sseq := 5, mrseq := 3 }).1.mrseq = 3) :=
  mrseq_le_sseq_step { boot defaults with sseq := 5, mrseq := 3 } 4 2 (by decide) (by decide)

end MPing
